import Mathlib

/-! Shallow embedding of `selfdrive/controls/lib/lane_planner.py`.

Numbers are exact rationals.  Perception inputs are finite values, so the
only non-finite float the algorithm itself can produce is the division by a
zero lane distance in `get_d_path`; the weight pair therefore lives in an
`Option`, with `none` standing for that non-finite (NaN/inf) result, and
`none` fails every comparison exactly as NaN does in Python.  A Python
exception (IndexError, numpy shape mismatch) abandons the cycle; functions
that can raise return `Option`, with `none` for the raise.  Line numbers in
the comments refer to the source file. -/

def TRAJECTORY_SIZE : Nat := 33

def PATH_OFFSET : ℚ := 0

def CAMERA_OFFSET : ℚ := 4/100

def KEEP_MIN_DISTANCE_FROM_LANE : ℚ := 13/10

/-- Modelled from the spec: the per-cycle period `DT_MDL` of
`openpilot.common.realtime`, which is not under `src/`; the spec only fixes
the filter's time constant (≈9.95 s), and no theorem below depends on the
exact value of the resulting gain beyond it lying in `[0, 1]`. -/
def DT_MDL : ℚ := 1/20

/-- Lines 18-19. -/
def clamp (num min_value max_value : ℚ) : ℚ := max (min num max_value) min_value

/-- Lines 21-22.  The library exponential `math.exp` is not part of the
repository; it is abstracted as the function argument `E`. -/
def sigmoid (E : ℚ → ℚ) (x scale offset : ℚ) : ℚ := 1 / (1 + E (x * scale)) + offset

/-- Modelled from the spec: the linear-interpolation primitive
(`openpilot.common.numpy_fast.interp` and `numpy.interp`, neither under
`src/`): monotone piecewise-linear interpolation with clamped extrapolation
at the ends. -/
def interp (x : ℚ) : List ℚ → List ℚ → ℚ
  | x1 :: x2 :: xs, y1 :: y2 :: ys =>
    if x ≤ x1 then y1
    else if x ≤ x2 then y1 + (y2 - y1) * (x - x1) / (x2 - x1)
    else interp x (x2 :: xs) (y2 :: ys)
  | [_], [y1] => y1
  | _, _ => 0

/-- Modelled from the spec: `FirstOrderFilter` of
`openpilot.common.filter_simple` (not under `src/`): a first-order low-pass
`x ← (1 − k)·x + k·u` with gain `k = dt / (rc + dt)`. -/
structure FirstOrderFilter where
  x : ℚ
  k : ℚ

/-- Modelled from the spec: `FirstOrderFilter(x0, rc, dt)`. -/
def FirstOrderFilter.make (x0 rc dt : ℚ) : FirstOrderFilter :=
  ⟨x0, dt / (rc + dt)⟩

/-- Modelled from the spec: one filter update. -/
def FirstOrderFilter.update (f : FirstOrderFilter) (u : ℚ) : FirstOrderFilter :=
  { f with x := (1 - f.k) * f.x + f.k * u }

/-- One lane line or road edge of the perception message: a time axis, a
forward-distance axis and a lateral-offset sequence. -/
structure LaneLine where
  t : List ℚ
  x : List ℚ
  y : List ℚ

structure ModelMeta where
  desireState : List ℚ

/-- The slice of the perception message `md` that `parse_model` reads. -/
structure ModelData where
  laneLines : List LaneLine
  roadEdges : List LaneLine
  laneLineProbs : List ℚ
  laneLineStds : List ℚ
  roadEdgeStds : List ℚ
  meta : ModelMeta

/-- Modelled from the spec: position of the left lane-change entry of the
intent vector (the `log.LateralPlan.Desire` schema is not under `src/`). -/
def DESIRE_LANE_CHANGE_LEFT : Nat := 3

/-- Modelled from the spec: position of the right lane-change entry. -/
def DESIRE_LANE_CHANGE_RIGHT : Nat := 4

structure LanePlanner where
  ll_t : List ℚ
  ll_x : List ℚ
  lll_y : List ℚ
  rll_y : List ℚ
  le_y : List ℚ
  re_y : List ℚ
  lane_width_estimate : FirstOrderFilter
  lane_width : ℚ
  lane_change_multiplier : ℚ
  lll_prob : ℚ
  rll_prob : ℚ
  d_prob : Option ℚ
  lll_std : ℚ
  rll_std : ℚ
  l_lane_change_prob : ℚ
  r_lane_change_prob : ℚ
  camera_offset : ℚ
  path_offset : ℚ

/-- Lines 25-47: `LanePlanner.__init__`.  `d_prob` is `Option ℚ` because
`get_d_path` can store a non-finite combined probability. -/
def LanePlanner.init : LanePlanner where
  ll_t := List.replicate TRAJECTORY_SIZE 0
  ll_x := List.replicate TRAJECTORY_SIZE 0
  lll_y := List.replicate TRAJECTORY_SIZE 0
  rll_y := List.replicate TRAJECTORY_SIZE 0
  le_y := List.replicate TRAJECTORY_SIZE 0
  re_y := List.replicate TRAJECTORY_SIZE 0
  lane_width_estimate := FirstOrderFilter.make (16/5) (199/20) DT_MDL
  lane_width := 16/5
  lane_change_multiplier := 1
  lll_prob := 0
  rll_prob := 0
  d_prob := some 0
  lll_std := 0
  rll_std := 0
  l_lane_change_prob := 0
  r_lane_change_prob := 0
  camera_offset := -CAMERA_OFFSET
  path_offset := -PATH_OFFSET

/-- numpy elementwise addition of two arrays; numpy raises on a shape
mismatch (modelled as `none`; the theorems below avoid the length-1
broadcast special case). -/
def npAdd (a b : List ℚ) : Option (List ℚ) :=
  if a.length = b.length then some (List.zipWith (fun u v => u + v) a b) else none

/-- Lines 53-62: the lane-line block of `parse_model`.  The condition checks
4 reported lines and the sample count of `laneLines[0].t`; on success the
inner lines' data is stored (lateral offsets shifted by the stored, negative
`camera_offset`), otherwise the previous state is kept.  Out-of-range
indexing of the prob/std vectors, and a shape mismatch in `t1 + t2`, raise
(`none`). -/
def parse_lane_lines (self : LanePlanner) (md : ModelData) : Option LanePlanner :=
  match md.laneLines with
  | [l0, l1, l2, _] =>
    if l0.t.length = TRAJECTORY_SIZE then
      match npAdd l1.t l2.t, md.laneLineProbs[1]?, md.laneLineProbs[2]?,
            md.laneLineStds[1]?, md.laneLineStds[2]? with
      | some ts, some p1, some p2, some q1, some q2 =>
        some { self with
          ll_t := ts.map (fun v => v / 2)
          ll_x := l1.x
          lll_y := l1.y.map (fun v => v + self.camera_offset)
          rll_y := l2.y.map (fun v => v + self.camera_offset)
          lll_prob := p1
          rll_prob := p2
          lll_std := q1
          rll_std := q2 }
      | _, _, _, _, _ => none
    else some self
  | _ => some self

/-- Lines 64-69: the road-edge block.  `edges[0]` is indexed unguarded, so an
empty edge list raises; when the first edge has the expected sample count,
`edges[1]` and both entries of `roadEdgeStds` are required as well, else the
lane-line sequences are substituted. -/
def parse_road_edges (self : LanePlanner) (md : ModelData) : Option LanePlanner :=
  match md.roadEdges with
  | [] => none
  | e0 :: rest =>
    if e0.t.length = TRAJECTORY_SIZE then
      match rest, md.roadEdgeStds[0]?, md.roadEdgeStds[1]? with
      | e1 :: _, some r0, some r1 =>
        some { self with
          le_y := e0.y.map (fun v => v + r0 * (4/10))
          re_y := e1.y.map (fun v => v - r1 * (4/10)) }
      | _, _, _ => none
    else
      some { self with le_y := self.lll_y, re_y := self.rll_y }

/-- Lines 71-74: the desire block.  An empty vector keeps the previous
change probabilities; a non-empty vector is indexed at the two lane-change
positions, raising when it is shorter. -/
def parse_desire (self : LanePlanner) (md : ModelData) : Option LanePlanner :=
  match md.meta.desireState with
  | [] => some self
  | d0 :: ds =>
    match (d0 :: ds)[DESIRE_LANE_CHANGE_LEFT]?, (d0 :: ds)[DESIRE_LANE_CHANGE_RIGHT]? with
    | some lp, some rp =>
      some { self with l_lane_change_prob := lp, r_lane_change_prob := rp }
    | _, _ => none

/-- Lines 49-74: `parse_model`.  A raise anywhere abandons the cycle, which
the model collapses to `none` (the partial in-place mutation that precedes a
Python raise is unobservable to later successful cycles of the claims
below). -/
def parse_model (self : LanePlanner) (md : ModelData) : Option LanePlanner :=
  (parse_lane_lines self md).bind fun s1 =>
    (parse_road_edges s1 md).bind fun s2 => parse_desire s2 md

/-- Lines 79-82: the unnormalized weights.  When `distance = 0` the float
division is non-finite and poisons both weights and their sum (`none`). -/
def rawWeights (lll_y0 rll_y0 lll_prob rll_prob lll_std rll_std : ℚ) : Option (ℚ × ℚ) :=
  let distance := rll_y0 - lll_y0
  if distance = 0 then none
  else
    let rr := rll_y0 / distance
    some ((rr + lll_prob * (4/10)) * interp lll_std [0, 4/5] [1, 1/100],
      ((1 - rr) + rll_prob * (4/10)) * interp rll_std [0, 4/5] [1, 1/100])

/-- Lines 84-92: the total-probability fallback and the normalization.  A
NaN total fails `total_prob < 0.01` and leaves the weights NaN (`none`). -/
def normWeights : Option (ℚ × ℚ) → Option (ℚ × ℚ)
  | none => none
  | some (l, r) =>
    if l + r < 1/100 then some (0, 0)
    else some (l / (l + r), r / (l + r))

/-- Line 118's probability gate `l_prob + r_prob > 0.9`; NaN weights fail
it. -/
def blend_gate : Option (ℚ × ℚ) → Bool
  | none => false
  | some (l, r) => decide (l + r > 9/10)

/-- Lines 101-103: `prepare_wiggle_room` as a function of `lane_width`. -/
def prepare_wiggle_room_of (lane_width : ℚ) : ℚ :=
  lane_width * (5/10) - min (lane_width * (5/10)) KEEP_MIN_DISTANCE_FROM_LANE

/-- Line 104. -/
def curve_prepare_raw (E : ℚ → ℚ) (vcurv lane_width : ℚ) : ℚ :=
  if prepare_wiggle_room_of lane_width > 0 then
    clamp ((7/10) * sigmoid E vcurv 4 (-(5/10)))
      (-prepare_wiggle_room_of lane_width) (prepare_wiggle_room_of lane_width)
  else 0

/-- Lines 106-110: the lane-loss damping. -/
def curve_prepare_damped (cp lll_std rll_std : ℚ) : ℚ :=
  if cp > 0 ∧ rll_std > 5/10 then cp * clamp (1 - 2 * (rll_std - 5/10)) (25/100) 1
  else if cp < 0 ∧ lll_std > 5/10 then cp * clamp (1 - 2 * (lll_std - 5/10)) (25/100) 1
  else cp

abbrev Vec3 := ℚ × ℚ × ℚ

/-- Lines 76-125: `get_d_path`.  The five head accesses model the `[0]`
indexings of lines 79-80, 95 and 117 (an empty array raises).  All stored
axis samples are finite rationals, so `np.isfinite(self.ll_t)` is an
all-true mask and the masked arrays are the full arrays; the blend requires
the numpy shapes to agree (else a raise).  The returned pair is the updated
planner state and the returned `path_xyz`. -/
def get_d_path (E : ℚ → ℚ) (self : LanePlanner) (_v_ego : ℚ) (path_t : List ℚ)
    (path_xyz : List Vec3) (vcurv : ℚ) : Option (LanePlanner × List Vec3) :=
  self.lll_y.head?.bind fun lll_y0 =>
  self.rll_y.head?.bind fun rll_y0 =>
  self.le_y.head?.bind fun le_y0 =>
  self.re_y.head?.bind fun re_y0 =>
  self.ll_t.head?.bind fun _t0 =>
    let nw := normWeights (rawWeights lll_y0 rll_y0 self.lll_prob self.rll_prob
      self.lll_std self.rll_std)
    let current_lane_width := clamp |min rll_y0 re_y0 - max lll_y0 le_y0| (26/10) 4
    let lwe := self.lane_width_estimate.update current_lane_width
    let lane_width := min lwe.x current_lane_width
    let lane_distance := lane_width * (5/10)
    let curve_prepare := curve_prepare_damped (curve_prepare_raw E vcurv lane_width)
      self.lll_std self.rll_std
    let path_from_left_lane := self.lll_y.map (fun y => y + lane_distance + curve_prepare)
    let path_from_right_lane := self.rll_y.map (fun y => y - lane_distance + curve_prepare)
    let newSelf := { self with
      lane_width_estimate := lwe
      lane_width := lane_width
      d_prob := nw.map (fun p => p.1 + p.2 - p.1 * p.2) }
    let blended : Option (List Vec3) :=
      if blend_gate nw then
        match nw with
        | some (l, r) =>
          (if path_from_left_lane.length = path_from_right_lane.length then
            some (List.zipWith (fun u v => l * u + r * v) path_from_left_lane path_from_right_lane)
          else none).bind fun lane_path_y =>
            if self.ll_t.length = lane_path_y.length ∧ path_t.length = path_xyz.length then
              some (List.zipWith (fun t p =>
                (p.1, self.lane_change_multiplier * interp t self.ll_t lane_path_y
                  + (1 - self.lane_change_multiplier) * p.2.1, p.2.2)) path_t path_xyz)
            else none
        | none => none
      else some path_xyz
    blended.map fun p1 => (newSelf, p1.map fun q => (q.1, q.2.1 + CAMERA_OFFSET, q.2.2))

/-- The states one planning session can reach: the initial state extended by
successful `parse_model` and `get_d_path` cycles (a raise abandons the
session). -/
inductive Reachable (E : ℚ → ℚ) : LanePlanner → Prop
  | init : Reachable E LanePlanner.init
  | parse (s : LanePlanner) (md : ModelData) (s' : LanePlanner) :
      Reachable E s → parse_model s md = some s' → Reachable E s'
  | path (s : LanePlanner) (v : ℚ) (pt : List ℚ) (pxyz : List Vec3) (vc : ℚ)
      (s' : LanePlanner) (p' : List Vec3) :
      Reachable E s → get_d_path E s v pt pxyz vc = some (s', p') → Reachable E s'

/-- A concrete stand-in for the library exponential, used only at inputs
where the theorem's conclusion is independent of the exponential's value
(the sigmoid term is clamped into a zero-width interval there). -/
def expStub : ℚ → ℚ := fun _ => 1

/-- The cross-cycle width invariant carried by `SmoothedLaneState`. -/
def widthInv (s : LanePlanner) : Prop :=
  s.lane_width_estimate.k = 1/200 ∧ 26/10 ≤ s.lane_width_estimate.x ∧
    s.lane_width_estimate.x ≤ 4 ∧ 26/10 ≤ s.lane_width ∧ s.lane_width ≤ 4

/-- The lane-line precondition that the code actually checks (lines 53):
four reported lane lines whose FIRST line's time axis has the expected
sample count. -/
def lane_lines_wellformed (md : ModelData) : Prop :=
  ∃ l0 l1 l2 l3, md.laneLines = [l0, l1, l2, l3] ∧ l0.t.length = TRAJECTORY_SIZE

/-- A perception message with an empty road-edge list (and everything else
empty as well). -/
def mdEmpty : ModelData := ⟨[], [], [], [], [], ⟨[]⟩⟩

/-- A malformed-but-nonempty message: no lane lines, one road edge with the
wrong sample count, an empty intent vector. -/
def mdShaped : ModelData := ⟨[], [⟨[], [], []⟩], [], [], [], ⟨[]⟩⟩

/-- Four reported lane lines whose inner two have the expected 33 samples
but whose first line has only 32; probabilities are reported as 0.9. -/
def mdC4 : ModelData :=
  ⟨[⟨List.replicate 32 0, [], []⟩,
    ⟨List.replicate 33 0, List.replicate 33 0, List.replicate 33 0⟩,
    ⟨List.replicate 33 0, List.replicate 33 0, List.replicate 33 0⟩,
    ⟨[], [], []⟩],
   [⟨[], [], []⟩], [0, 9/10, 9/10, 0], [0, 0, 0, 0], [], ⟨[]⟩⟩

/-- A geometry state with both inner-line confidences 0 and both stds at
0.8, lane lines (and substituted edges) at ±1.3 m. -/
def cexC1 : LanePlanner := { LanePlanner.init with
  lll_y := List.replicate TRAJECTORY_SIZE (-(13/10))
  rll_y := List.replicate TRAJECTORY_SIZE (13/10)
  le_y := List.replicate TRAJECTORY_SIZE (-(13/10))
  re_y := List.replicate TRAJECTORY_SIZE (13/10)
  lll_std := 4/5
  rll_std := 4/5 }

/-- A geometry state whose lane lines both lie left of the camera
(`rll_y[0]/distance` is negative), giving weights outside `[0, 1]`. -/
def cexC3 : LanePlanner := { LanePlanner.init with
  lll_y := List.replicate TRAJECTORY_SIZE (-3)
  rll_y := List.replicate TRAJECTORY_SIZE (-1)
  le_y := List.replicate TRAJECTORY_SIZE (-3)
  re_y := List.replicate TRAJECTORY_SIZE (-1) }

/-- A well-placed geometry state: camera between the lane lines at ∓1.5 m. -/
def sC3w : LanePlanner := { LanePlanner.init with
  lll_y := List.replicate TRAJECTORY_SIZE (-(3/2))
  rll_y := List.replicate TRAJECTORY_SIZE (3/2)
  le_y := List.replicate TRAJECTORY_SIZE (-(3/2))
  re_y := List.replicate TRAJECTORY_SIZE (3/2) }

/-- Four well-formed lane lines (33 samples each) with distinct reported
probabilities and stds, one wrong-length road edge, an empty intent
vector. -/
def mdGood : ModelData :=
  ⟨[⟨List.replicate 33 0, List.replicate 33 0, List.replicate 33 0⟩,
    ⟨List.replicate 33 0, List.replicate 33 0, List.replicate 33 0⟩,
    ⟨List.replicate 33 0, List.replicate 33 0, List.replicate 33 0⟩,
    ⟨List.replicate 33 0, [], []⟩],
   [⟨[], [], []⟩], [1/2, 6/10, 7/10, 1/2], [0, 1/10, 2/10, 0], [], ⟨[]⟩⟩

/-! ### Helper lemmas -/

theorem rep33 (x : ℚ) : List.replicate TRAJECTORY_SIZE x = x :: x :: List.replicate 31 x := rfl

theorem le_clamp (x lo hi : ℚ) : lo ≤ clamp x lo hi := le_max_right _ _

theorem clamp_le (x lo hi : ℚ) (h : lo ≤ hi) : clamp x lo hi ≤ hi :=
  max_le (min_le_right _ _) h

theorem interp_pair (x x1 x2 y1 y2 : ℚ) :
    interp x [x1, x2] [y1, y2] =
      if x ≤ x1 then y1
      else if x ≤ x2 then y1 + (y2 - y1) * (x - x1) / (x2 - x1)
      else y2 := by
  simp only [interp]

theorem interp_std_bounds (q : ℚ) :
    1/100 ≤ interp q [0, 4/5] [1, 1/100] ∧ interp q [0, 4/5] [1, 1/100] ≤ 1 := by
  rw [interp_pair]
  split_ifs with h1 h2
  · norm_num
  · push_neg at h1
    have e : (1:ℚ) + (1/100 - 1) * (q - 0) / (4/5 - 0) = 1 - (99/80) * q := by ring
    rw [e]
    constructor <;> linarith
  · norm_num

theorem interp_std_high (q : ℚ) (h : 4/5 ≤ q) : interp q [0, 4/5] [1, 1/100] = 1/100 := by
  rw [interp_pair]
  split_ifs with h1 h2
  · linarith
  · have hq : q = 4/5 := le_antisymm h2 h
    rw [hq]; norm_num
  · rfl

theorem get_d_path_some_state (E : ℚ → ℚ) (self : LanePlanner) (v : ℚ) (pt : List ℚ)
    (pxyz : List Vec3) (vc : ℚ) (s' : LanePlanner) (p' : List Vec3)
    (h : get_d_path E self v pt pxyz vc = some (s', p')) :
    ∃ a b c d, self.lll_y.head? = some a ∧ self.rll_y.head? = some b ∧
      self.le_y.head? = some c ∧ self.re_y.head? = some d ∧
      s' = { self with
        lane_width_estimate :=
          self.lane_width_estimate.update (clamp |min b d - max a c| (26/10) 4)
        lane_width :=
          min (self.lane_width_estimate.update (clamp |min b d - max a c| (26/10) 4)).x
            (clamp |min b d - max a c| (26/10) 4)
        d_prob := (normWeights (rawWeights a b self.lll_prob self.rll_prob self.lll_std
          self.rll_std)).map (fun p => p.1 + p.2 - p.1 * p.2) } := by
  unfold get_d_path at h
  rw [Option.bind_eq_some] at h
  obtain ⟨a, h1, h⟩ := h
  rw [Option.bind_eq_some] at h
  obtain ⟨b, h2, h⟩ := h
  rw [Option.bind_eq_some] at h
  obtain ⟨c, h3, h⟩ := h
  rw [Option.bind_eq_some] at h
  obtain ⟨d, h4, h⟩ := h
  rw [Option.bind_eq_some] at h
  obtain ⟨t0, h5, h⟩ := h
  simp only [Option.map_eq_some'] at h
  obtain ⟨p1, _, hpair⟩ := h
  rw [Prod.mk.injEq] at hpair
  exact ⟨a, b, c, d, h1, h2, h3, h4, hpair.1.symm⟩

theorem parse_lane_lines_frame (self : LanePlanner) (md : ModelData) (s' : LanePlanner)
    (h : parse_lane_lines self md = some s') :
    s'.lane_width_estimate = self.lane_width_estimate ∧ s'.lane_width = self.lane_width := by
  unfold parse_lane_lines at h
  repeat' split at h
  all_goals first
    | (obtain rfl := Option.some.inj h; exact ⟨rfl, rfl⟩)
    | simp at h

theorem parse_road_edges_frame (self : LanePlanner) (md : ModelData) (s' : LanePlanner)
    (h : parse_road_edges self md = some s') :
    s'.lane_width_estimate = self.lane_width_estimate ∧ s'.lane_width = self.lane_width := by
  unfold parse_road_edges at h
  repeat' split at h
  all_goals first
    | (obtain rfl := Option.some.inj h; exact ⟨rfl, rfl⟩)
    | simp at h

theorem parse_desire_frame (self : LanePlanner) (md : ModelData) (s' : LanePlanner)
    (h : parse_desire self md = some s') :
    s'.lane_width_estimate = self.lane_width_estimate ∧ s'.lane_width = self.lane_width := by
  unfold parse_desire at h
  repeat' split at h
  all_goals first
    | (obtain rfl := Option.some.inj h; exact ⟨rfl, rfl⟩)
    | simp at h

theorem parse_model_frame (self : LanePlanner) (md : ModelData) (s' : LanePlanner)
    (h : parse_model self md = some s') :
    s'.lane_width_estimate = self.lane_width_estimate ∧ s'.lane_width = self.lane_width := by
  unfold parse_model at h
  rw [Option.bind_eq_some] at h
  obtain ⟨s1, h1, h⟩ := h
  rw [Option.bind_eq_some] at h
  obtain ⟨s2, h2, h3⟩ := h
  obtain ⟨a1, b1⟩ := parse_lane_lines_frame _ _ _ h1
  obtain ⟨a2, b2⟩ := parse_road_edges_frame _ _ _ h2
  obtain ⟨a3, b3⟩ := parse_desire_frame _ _ _ h3
  exact ⟨a3.trans (a2.trans a1), b3.trans (b2.trans b1)⟩

theorem widthInv_init : widthInv LanePlanner.init := by
  unfold widthInv LanePlanner.init FirstOrderFilter.make DT_MDL
  norm_num

theorem widthInv_get_d_path (E : ℚ → ℚ) (s : LanePlanner) (v : ℚ) (pt : List ℚ)
    (pxyz : List Vec3) (vc : ℚ) (s' : LanePlanner) (p' : List Vec3)
    (hi : widthInv s) (h : get_d_path E s v pt pxyz vc = some (s', p')) : widthInv s' := by
  obtain ⟨a, b, c, d, _, _, _, _, rfl⟩ := get_d_path_some_state E s v pt pxyz vc s' p' h
  obtain ⟨hk, hx1, hx2, _, _⟩ := hi
  have hcw1 : 26/10 ≤ clamp |min b d - max a c| (26/10) 4 := le_clamp _ _ _
  have hcw2 : clamp |min b d - max a c| (26/10) 4 ≤ 4 := clamp_le _ _ _ (by norm_num)
  have hup1 : 26/10 ≤ (s.lane_width_estimate.update (clamp |min b d - max a c| (26/10) 4)).x := by
    simp only [FirstOrderFilter.update, hk]
    linarith
  have hup2 : (s.lane_width_estimate.update (clamp |min b d - max a c| (26/10) 4)).x ≤ 4 := by
    simp only [FirstOrderFilter.update, hk]
    linarith
  refine ⟨?_, hup1, hup2, le_min hup1 hcw1, le_trans (min_le_right _ _) hcw2⟩
  simp only [FirstOrderFilter.update]
  exact hk

theorem widthInv_reachable (E : ℚ → ℚ) (s : LanePlanner) (h : Reachable E s) : widthInv s := by
  induction h with
  | init => exact widthInv_init
  | parse s md s' _ hp ih =>
    obtain ⟨hf, hw⟩ := parse_model_frame _ _ _ hp
    unfold widthInv at ih ⊢
    rw [hf, hw]
    exact ih
  | path s v pt pxyz vc s' p' _ hp ih =>
    exact widthInv_get_d_path E s v pt pxyz vc s' p' ih hp

theorem parse_lane_lines_total (self : LanePlanner) (md : ModelData)
    (hl : ∀ l0 l1 l2 l3, md.laneLines = [l0, l1, l2, l3] → l0.t.length = TRAJECTORY_SIZE →
      l1.t.length = l2.t.length ∧ 2 < md.laneLineProbs.length ∧ 2 < md.laneLineStds.length) :
    ∃ s1, parse_lane_lines self md = some s1 ∧
      (¬ lane_lines_wellformed md → s1 = self) ∧
      (∀ l0 l1 l2 l3, md.laneLines = [l0, l1, l2, l3] → l0.t.length = TRAJECTORY_SIZE →
        s1.ll_t = (List.zipWith (fun u v => u + v) l1.t l2.t).map (fun v => v / 2) ∧
        s1.ll_x = l1.x ∧
        s1.lll_y = l1.y.map (fun v => v + self.camera_offset) ∧
        s1.rll_y = l2.y.map (fun v => v + self.camera_offset) ∧
        md.laneLineProbs[1]? = some s1.lll_prob ∧
        md.laneLineProbs[2]? = some s1.rll_prob ∧
        md.laneLineStds[1]? = some s1.lll_std ∧
        md.laneLineStds[2]? = some s1.rll_std) ∧
      s1.le_y = self.le_y ∧ s1.re_y = self.re_y ∧
      s1.l_lane_change_prob = self.l_lane_change_prob ∧
      s1.r_lane_change_prob = self.r_lane_change_prob := by
  rcases hL : md.laneLines with _ | ⟨l0, _ | ⟨l1, _ | ⟨l2, _ | ⟨l3, _ | ⟨l4, rest⟩⟩⟩⟩⟩
  case nil =>
    refine ⟨self, by simp [parse_lane_lines, hL], fun _ => rfl, ?_, rfl, rfl, rfl, rfl⟩
    intro k0 k1 k2 k3 hk
    simp at hk
  case cons.nil =>
    refine ⟨self, by simp [parse_lane_lines, hL], fun _ => rfl, ?_, rfl, rfl, rfl, rfl⟩
    intro k0 k1 k2 k3 hk
    simp at hk
  case cons.cons.nil =>
    refine ⟨self, by simp [parse_lane_lines, hL], fun _ => rfl, ?_, rfl, rfl, rfl, rfl⟩
    intro k0 k1 k2 k3 hk
    simp at hk
  case cons.cons.cons.nil =>
    refine ⟨self, by simp [parse_lane_lines, hL], fun _ => rfl, ?_, rfl, rfl, rfl, rfl⟩
    intro k0 k1 k2 k3 hk
    simp at hk
  case cons.cons.cons.cons.cons =>
    refine ⟨self, by simp [parse_lane_lines, hL], fun _ => rfl, ?_, rfl, rfl, rfl, rfl⟩
    intro k0 k1 k2 k3 hk
    simp at hk
  case cons.cons.cons.cons.nil =>
    by_cases ht : l0.t.length = TRAJECTORY_SIZE
    · obtain ⟨hteq, hp, hq⟩ := hl l0 l1 l2 l3 hL ht
      obtain ⟨p1, hp1⟩ : ∃ p, md.laneLineProbs[1]? = some p :=
        ⟨_, List.getElem?_eq_getElem (by omega)⟩
      obtain ⟨p2, hp2⟩ : ∃ p, md.laneLineProbs[2]? = some p :=
        ⟨_, List.getElem?_eq_getElem (by omega)⟩
      obtain ⟨q1, hq1⟩ : ∃ p, md.laneLineStds[1]? = some p :=
        ⟨_, List.getElem?_eq_getElem (by omega)⟩
      obtain ⟨q2, hq2⟩ : ∃ p, md.laneLineStds[2]? = some p :=
        ⟨_, List.getElem?_eq_getElem (by omega)⟩
      have hadd : npAdd l1.t l2.t = some (List.zipWith (fun u v => u + v) l1.t l2.t) := by
        unfold npAdd
        rw [if_pos hteq]
      refine ⟨{ self with
          ll_t := (List.zipWith (fun u v => u + v) l1.t l2.t).map (fun v => v / 2)
          ll_x := l1.x
          lll_y := l1.y.map (fun v => v + self.camera_offset)
          rll_y := l2.y.map (fun v => v + self.camera_offset)
          lll_prob := p1
          rll_prob := p2
          lll_std := q1
          rll_std := q2 }, ?_, ?_, ?_, rfl, rfl, rfl, rfl⟩
      · simp [parse_lane_lines, hL, ht, hadd, hp1, hp2, hq1, hq2]
      · intro hn
        exact absurd ⟨l0, l1, l2, l3, hL, ht⟩ hn
      · intro k0 k1 k2 k3 hk _
        simp only [List.cons.injEq, and_true] at hk
        obtain ⟨e0, e1, e2, e3⟩ := hk
        subst e1
        subst e2
        exact ⟨rfl, rfl, rfl, rfl, hp1, hp2, hq1, hq2⟩
    · refine ⟨self, by simp [parse_lane_lines, hL, ht], fun _ => rfl, ?_, rfl, rfl, rfl, rfl⟩
      intro k0 k1 k2 k3 hk hkt
      simp only [List.cons.injEq, and_true] at hk
      obtain ⟨e0, -, -, -⟩ := hk
      subst e0
      exact absurd hkt ht

theorem parse_road_edges_total (self : LanePlanner) (md : ModelData)
    (he0 : md.roadEdges ≠ [])
    (he1 : ∀ e0 rest, md.roadEdges = e0 :: rest → e0.t.length = TRAJECTORY_SIZE →
      rest ≠ [] ∧ 1 < md.roadEdgeStds.length) :
    ∃ s2, parse_road_edges self md = some s2 ∧
      (∀ e0 rest, md.roadEdges = e0 :: rest → e0.t.length ≠ TRAJECTORY_SIZE →
        s2.le_y = self.lll_y ∧ s2.re_y = self.rll_y) ∧
      s2.ll_t = self.ll_t ∧ s2.ll_x = self.ll_x ∧ s2.lll_y = self.lll_y ∧
      s2.rll_y = self.rll_y ∧ s2.lll_prob = self.lll_prob ∧ s2.rll_prob = self.rll_prob ∧
      s2.lll_std = self.lll_std ∧ s2.rll_std = self.rll_std ∧
      s2.l_lane_change_prob = self.l_lane_change_prob ∧
      s2.r_lane_change_prob = self.r_lane_change_prob := by
  rcases hE : md.roadEdges with _ | ⟨e0, rest⟩
  · exact absurd hE he0
  by_cases ht : e0.t.length = TRAJECTORY_SIZE
  · obtain ⟨hrest, hstds⟩ := he1 e0 rest hE ht
    rcases rest with _ | ⟨e1, rest2⟩
    · exact absurd rfl hrest
    obtain ⟨r0, hr0⟩ : ∃ r, md.roadEdgeStds[0]? = some r :=
      ⟨_, List.getElem?_eq_getElem (by omega)⟩
    obtain ⟨r1, hr1⟩ : ∃ r, md.roadEdgeStds[1]? = some r :=
      ⟨_, List.getElem?_eq_getElem (by omega)⟩
    use { self with
      le_y := e0.y.map (fun v => v + r0 * (4/10))
      re_y := e1.y.map (fun v => v - r1 * (4/10)) }
    refine ⟨?_, ?_, rfl, rfl, rfl, rfl, rfl, rfl, rfl, rfl, rfl, rfl⟩
    · simp [parse_road_edges, hE, ht, hr0, hr1]
    · intro k0 krest hk hkt
      simp only [List.cons.injEq] at hk
      obtain ⟨ek, -⟩ := hk
      subst ek
      exact absurd ht hkt
  · use { self with le_y := self.lll_y, re_y := self.rll_y }
    refine ⟨?_, ?_, rfl, rfl, rfl, rfl, rfl, rfl, rfl, rfl, rfl, rfl⟩
    · simp [parse_road_edges, hE, ht]
    · intro k0 krest hk hkt
      exact ⟨rfl, rfl⟩

theorem parse_desire_total (self : LanePlanner) (md : ModelData)
    (hds : md.meta.desireState = [] ∨ 4 < md.meta.desireState.length) :
    ∃ s3, parse_desire self md = some s3 ∧
      (md.meta.desireState = [] → s3 = self) ∧
      s3.ll_t = self.ll_t ∧ s3.ll_x = self.ll_x ∧ s3.lll_y = self.lll_y ∧
      s3.rll_y = self.rll_y ∧ s3.le_y = self.le_y ∧ s3.re_y = self.re_y ∧
      s3.lll_prob = self.lll_prob ∧ s3.rll_prob = self.rll_prob ∧
      s3.lll_std = self.lll_std ∧ s3.rll_std = self.rll_std := by
  rcases hD : md.meta.desireState with _ | ⟨d0, ds⟩
  · exact ⟨self, by simp [parse_desire, hD], fun _ => rfl,
      rfl, rfl, rfl, rfl, rfl, rfl, rfl, rfl, rfl, rfl⟩
  rcases hds with h | h
  · rw [hD] at h
    simp at h
  rw [hD] at h
  obtain ⟨lp, hlp⟩ : ∃ p, (d0 :: ds)[DESIRE_LANE_CHANGE_LEFT]? = some p :=
    ⟨_, List.getElem?_eq_getElem (by simp only [DESIRE_LANE_CHANGE_LEFT]; omega)⟩
  obtain ⟨rp, hrp⟩ : ∃ p, (d0 :: ds)[DESIRE_LANE_CHANGE_RIGHT]? = some p :=
    ⟨_, List.getElem?_eq_getElem (by simp only [DESIRE_LANE_CHANGE_RIGHT]; omega)⟩
  use { self with l_lane_change_prob := lp, r_lane_change_prob := rp }
  refine ⟨?_, ?_, rfl, rfl, rfl, rfl, rfl, rfl, rfl, rfl, rfl, rfl⟩
  · simp [parse_desire, hD, hlp, hrp]
  · intro hc
    simp at hc

/-- C2 (amended): `parse_model` completes without raising provided the
road-edge list is nonempty (with a second edge and two edge stds when the
first edge has the expected sample count), the prob/std vectors have at
least three entries and equal inner time axes when four well-formed lane
lines are reported, and the intent vector is empty or long enough; within
that domain the documented fallbacks hold: a malformed lane-line set keeps
the previous lane-line state, a wrong-length first road edge substitutes
the lane-line sequences for the edge sequences, and an empty intent vector
keeps the previous change probabilities.  (As stated, the claim is false:
an empty road-edge list makes line 64 raise an IndexError, see the
counterexample.) -/
theorem C2_no_raise (self : LanePlanner) (md : ModelData)
    (hl : ∀ l0 l1 l2 l3, md.laneLines = [l0, l1, l2, l3] → l0.t.length = TRAJECTORY_SIZE →
      l1.t.length = l2.t.length ∧ 2 < md.laneLineProbs.length ∧ 2 < md.laneLineStds.length)
    (he0 : md.roadEdges ≠ [])
    (he1 : ∀ e0 rest, md.roadEdges = e0 :: rest → e0.t.length = TRAJECTORY_SIZE →
      rest ≠ [] ∧ 1 < md.roadEdgeStds.length)
    (hds : md.meta.desireState = [] ∨ 4 < md.meta.desireState.length) :
    ∃ s', parse_model self md = some s' ∧
      (¬ lane_lines_wellformed md →
        s'.ll_t = self.ll_t ∧ s'.ll_x = self.ll_x ∧ s'.lll_y = self.lll_y ∧
        s'.rll_y = self.rll_y ∧ s'.lll_prob = self.lll_prob ∧ s'.rll_prob = self.rll_prob ∧
        s'.lll_std = self.lll_std ∧ s'.rll_std = self.rll_std) ∧
      (∀ e0 rest, md.roadEdges = e0 :: rest → e0.t.length ≠ TRAJECTORY_SIZE →
        s'.le_y = s'.lll_y ∧ s'.re_y = s'.rll_y) ∧
      (md.meta.desireState = [] →
        s'.l_lane_change_prob = self.l_lane_change_prob ∧
        s'.r_lane_change_prob = self.r_lane_change_prob) := by
  obtain ⟨s1, e1, hbad1, _, hle1, hre1, hlc1, hrc1⟩ := parse_lane_lines_total self md hl
  obtain ⟨s2, e2, hfall2, h2t, h2x, h2ly, h2ry, h2lp, h2rp, h2ls, h2rs, h2lc, h2rc⟩ :=
    parse_road_edges_total s1 md he0 he1
  obtain ⟨s3, e3, hemp3, h3t, h3x, h3ly, h3ry, h3le, h3re, h3lp, h3rp, h3ls, h3rs⟩ :=
    parse_desire_total s2 md hds
  refine ⟨s3, ?_, ?_, ?_, ?_⟩
  · unfold parse_model
    rw [e1, Option.some_bind, e2, Option.some_bind]
    exact e3
  · intro hn
    obtain h1eq := hbad1 hn
    rw [h1eq] at h2t h2x h2ly h2ry h2lp h2rp h2ls h2rs
    exact ⟨h3t.trans h2t, h3x.trans h2x, h3ly.trans h2ly, h3ry.trans h2ry,
      h3lp.trans h2lp, h3rp.trans h2rp, h3ls.trans h2ls, h3rs.trans h2rs⟩
  · intro e0 rest hE hT
    obtain ⟨hle, hre⟩ := hfall2 e0 rest hE hT
    constructor
    · rw [h3le, hle, h3ly, h2ly]
    · rw [h3re, hre, h3ry, h2ry]
  · intro hD
    obtain h3eq := hemp3 hD
    rw [h3eq]
    exact ⟨h2lc.trans hlc1, h2rc.trans hrc1⟩

/-- C2 counterexample: the claim as stated is false.  A perception result
whose road-edge list is empty makes `parse_model` raise an IndexError at
line 64 (`edges[0]`); the model returns `none` for the raised exception. -/
theorem C2_cex : parse_model LanePlanner.init mdEmpty = none := by
  simp [parse_model, parse_lane_lines, parse_road_edges, mdEmpty]

/-- C2 witness: the amended theorem applied to a concrete malformed-but-
shaped message (no lane lines, one wrong-length road edge, empty intent
vector): the parse succeeds and all three fallbacks are exercised. -/
theorem C2_no_raise_witness :
    ∃ s', parse_model LanePlanner.init mdShaped = some s' ∧
      (¬ lane_lines_wellformed mdShaped →
        s'.ll_t = LanePlanner.init.ll_t ∧ s'.ll_x = LanePlanner.init.ll_x ∧
        s'.lll_y = LanePlanner.init.lll_y ∧ s'.rll_y = LanePlanner.init.rll_y ∧
        s'.lll_prob = LanePlanner.init.lll_prob ∧ s'.rll_prob = LanePlanner.init.rll_prob ∧
        s'.lll_std = LanePlanner.init.lll_std ∧ s'.rll_std = LanePlanner.init.rll_std) ∧
      (∀ e0 rest, mdShaped.roadEdges = e0 :: rest → e0.t.length ≠ TRAJECTORY_SIZE →
        s'.le_y = s'.lll_y ∧ s'.re_y = s'.rll_y) ∧
      (mdShaped.meta.desireState = [] →
        s'.l_lane_change_prob = LanePlanner.init.l_lane_change_prob ∧
        s'.r_lane_change_prob = LanePlanner.init.r_lane_change_prob) :=
  C2_no_raise LanePlanner.init mdShaped
    (by
      intro l0 l1 l2 l3 h
      simp [mdShaped] at h)
    (by simp [mdShaped])
    (by
      intro e0 rest h ht
      simp only [mdShaped, List.cons.injEq] at h
      rw [← h.1] at ht
      simp [TRAJECTORY_SIZE] at ht)
    (Or.inl rfl)

/-- C4 (amended): within the no-raise domain of C2's hypotheses,
`parse_model` updates `axis`, `laneLineX`, `leftLaneY`/`rightLaneY` (shifted
by the stored camera offset) and the four confidence/uncertainty scalars
exactly when four lane lines are reported and the FIRST lane line's time
axis has N = 33 samples (the code checks `laneLines[0].t`, not the inner
two lines' sample counts); when that precondition fails, all of those
fields keep their previous values.  (As stated, the claim is false: the
precondition it names — the inner two lines having 33 samples — differs
from the one the code checks, see the counterexample.) -/
theorem C4_update_condition (self : LanePlanner) (md : ModelData)
    (hl : ∀ l0 l1 l2 l3, md.laneLines = [l0, l1, l2, l3] → l0.t.length = TRAJECTORY_SIZE →
      l1.t.length = l2.t.length ∧ 2 < md.laneLineProbs.length ∧ 2 < md.laneLineStds.length)
    (he0 : md.roadEdges ≠ [])
    (he1 : ∀ e0 rest, md.roadEdges = e0 :: rest → e0.t.length = TRAJECTORY_SIZE →
      rest ≠ [] ∧ 1 < md.roadEdgeStds.length)
    (hds : md.meta.desireState = [] ∨ 4 < md.meta.desireState.length) :
    ∃ s', parse_model self md = some s' ∧
      (∀ l0 l1 l2 l3, md.laneLines = [l0, l1, l2, l3] → l0.t.length = TRAJECTORY_SIZE →
        s'.ll_t = (List.zipWith (fun u v => u + v) l1.t l2.t).map (fun v => v / 2) ∧
        s'.ll_x = l1.x ∧
        s'.lll_y = l1.y.map (fun v => v + self.camera_offset) ∧
        s'.rll_y = l2.y.map (fun v => v + self.camera_offset) ∧
        md.laneLineProbs[1]? = some s'.lll_prob ∧
        md.laneLineProbs[2]? = some s'.rll_prob ∧
        md.laneLineStds[1]? = some s'.lll_std ∧
        md.laneLineStds[2]? = some s'.rll_std) ∧
      (¬ lane_lines_wellformed md →
        s'.ll_t = self.ll_t ∧ s'.ll_x = self.ll_x ∧ s'.lll_y = self.lll_y ∧
        s'.rll_y = self.rll_y ∧ s'.lll_prob = self.lll_prob ∧ s'.rll_prob = self.rll_prob ∧
        s'.lll_std = self.lll_std ∧ s'.rll_std = self.rll_std) := by
  obtain ⟨s1, e1, hbad1, hgood1, _, _, _, _⟩ := parse_lane_lines_total self md hl
  obtain ⟨s2, e2, _, h2t, h2x, h2ly, h2ry, h2lp, h2rp, h2ls, h2rs, _, _⟩ :=
    parse_road_edges_total s1 md he0 he1
  obtain ⟨s3, e3, _, h3t, h3x, h3ly, h3ry, _, _, h3lp, h3rp, h3ls, h3rs⟩ :=
    parse_desire_total s2 md hds
  refine ⟨s3, ?_, ?_, ?_⟩
  · unfold parse_model
    rw [e1, Option.some_bind, e2, Option.some_bind]
    exact e3
  · intro l0 l1 l2 l3 hL hT
    obtain ⟨u1, u2, u3, u4, u5, u6, u7, u8⟩ := hgood1 l0 l1 l2 l3 hL hT
    refine ⟨h3t.trans (h2t.trans u1), h3x.trans (h2x.trans u2),
      h3ly.trans (h2ly.trans u3), h3ry.trans (h2ry.trans u4), ?_, ?_, ?_, ?_⟩
    · rw [h3lp, h2lp]
      exact u5
    · rw [h3rp, h2rp]
      exact u6
    · rw [h3ls, h2ls]
      exact u7
    · rw [h3rs, h2rs]
      exact u8
  · intro hn
    obtain h1eq := hbad1 hn
    rw [h1eq] at h2t h2x h2ly h2ry h2lp h2rp h2ls h2rs
    exact ⟨h3t.trans h2t, h3x.trans h2x, h3ly.trans h2ly, h3ry.trans h2ry,
      h3lp.trans h2lp, h3rp.trans h2rp, h3ls.trans h2ls, h3rs.trans h2rs⟩

/-- C4 counterexample: the claim as stated is false.  In `mdC4` four lane
lines are reported and the inner two both have 33 samples — the claim's
precondition holds, and the reported inner-right probability is 0.9 — yet
the code retains the previous value 0, because the condition it checks is
the FIRST line's sample count (32 here). -/
theorem C4_cex :
    (parse_model LanePlanner.init mdC4).map (fun s => s.rll_prob) = some 0 ∧
    mdC4.laneLines.length = 4 ∧
    (mdC4.laneLines[1]?).map (fun l => l.t.length) = some TRAJECTORY_SIZE ∧
    (mdC4.laneLines[2]?).map (fun l => l.t.length) = some TRAJECTORY_SIZE ∧
    mdC4.laneLineProbs[2]? = some (9/10) ∧ (9/10 : ℚ) ≠ 0 := by
  refine ⟨?_, by simp [mdC4], ?_, ?_, by simp [mdC4], by norm_num⟩
  · norm_num [parse_model, parse_lane_lines, parse_road_edges, parse_desire, mdC4,
      LanePlanner.init, TRAJECTORY_SIZE]
  · norm_num [mdC4, TRAJECTORY_SIZE]
  · norm_num [mdC4, TRAJECTORY_SIZE]

/-- C4 witness: the amended theorem applied to a concrete well-formed
message (`mdGood`), whose precondition branch performs the update. -/
theorem C4_update_condition_witness :
    ∃ s', parse_model LanePlanner.init mdGood = some s' ∧
      (∀ l0 l1 l2 l3, mdGood.laneLines = [l0, l1, l2, l3] → l0.t.length = TRAJECTORY_SIZE →
        s'.ll_t = (List.zipWith (fun u v => u + v) l1.t l2.t).map (fun v => v / 2) ∧
        s'.ll_x = l1.x ∧
        s'.lll_y = l1.y.map (fun v => v + LanePlanner.init.camera_offset) ∧
        s'.rll_y = l2.y.map (fun v => v + LanePlanner.init.camera_offset) ∧
        mdGood.laneLineProbs[1]? = some s'.lll_prob ∧
        mdGood.laneLineProbs[2]? = some s'.rll_prob ∧
        mdGood.laneLineStds[1]? = some s'.lll_std ∧
        mdGood.laneLineStds[2]? = some s'.rll_std) ∧
      (¬ lane_lines_wellformed mdGood →
        s'.ll_t = LanePlanner.init.ll_t ∧ s'.ll_x = LanePlanner.init.ll_x ∧
        s'.lll_y = LanePlanner.init.lll_y ∧ s'.rll_y = LanePlanner.init.rll_y ∧
        s'.lll_prob = LanePlanner.init.lll_prob ∧ s'.rll_prob = LanePlanner.init.rll_prob ∧
        s'.lll_std = LanePlanner.init.lll_std ∧ s'.rll_std = LanePlanner.init.rll_std) :=
  C4_update_condition LanePlanner.init mdGood
    (by
      intro l0 l1 l2 l3 h ht
      simp only [mdGood, List.cons.injEq, and_true] at h
      obtain ⟨h0, h1, h2, h3⟩ := h
      subst h1
      subst h2
      exact ⟨rfl, by simp [mdGood], by simp [mdGood]⟩)
    (by simp [mdGood])
    (by
      intro e0 rest h ht
      simp only [mdGood, List.cons.injEq] at h
      rw [← h.1] at ht
      simp [TRAJECTORY_SIZE] at ht)
    (Or.inl rfl)

/-- C5: for every sequence of successful cycles starting from the initial
state (width filter initialized at 3.2), the `lane_width` value computed
and stored by each `get_d_path` call — `min(filteredWidth, currentWidth)`
with `currentWidth` clamped to `[2.6, 4.0]` — lies in `[2.6, 4.0]`. -/
theorem C5_lane_width_bounds (E : ℚ → ℚ) (s : LanePlanner) (h : Reachable E s) :
    26/10 ≤ s.lane_width ∧ s.lane_width ≤ 4 := by
  obtain ⟨-, -, -, h4, h5⟩ := widthInv_reachable E s h
  exact ⟨h4, h5⟩

/-- C5 witness: the bound at the (reachable) initial state. -/
theorem C5_lane_width_bounds_witness :
    26/10 ≤ LanePlanner.init.lane_width ∧ LanePlanner.init.lane_width ≤ 4 :=
  C5_lane_width_bounds expStub LanePlanner.init Reachable.init

/-- C6: for every input to `get_d_path`, the curvature-prepare bias after
the lane-loss damping step satisfies `|curvePrepare| ≤ wiggleRoom`, and it
is 0 whenever `wiggleRoom ≤ 0` — for any value of the library exponential
`E`. -/
theorem C6_curve_prepare_bounds (E : ℚ → ℚ) (vcurv lane_width lll_std rll_std : ℚ) :
    |curve_prepare_damped (curve_prepare_raw E vcurv lane_width) lll_std rll_std| ≤
      prepare_wiggle_room_of lane_width ∧
    (prepare_wiggle_room_of lane_width ≤ 0 →
      curve_prepare_damped (curve_prepare_raw E vcurv lane_width) lll_std rll_std = 0) := by
  have hw : 0 ≤ prepare_wiggle_room_of lane_width := by
    unfold prepare_wiggle_room_of
    have hm := min_le_left (lane_width * (5/10)) KEEP_MIN_DISTANCE_FROM_LANE
    linarith
  have hraw : |curve_prepare_raw E vcurv lane_width| ≤ prepare_wiggle_room_of lane_width := by
    unfold curve_prepare_raw
    split_ifs with h
    · rw [abs_le]
      exact ⟨le_clamp _ _ _, clamp_le _ _ _ (by linarith)⟩
    · simpa using hw
  have hdamp : ∀ cp : ℚ, |curve_prepare_damped cp lll_std rll_std| ≤ |cp| := by
    intro cp
    unfold curve_prepare_damped
    split_ifs with h1 h2
    · have f2 : clamp (1 - 2 * (rll_std - 5/10)) (25/100) 1 ≤ 1 := clamp_le _ _ _ (by norm_num)
      have f1 : (0:ℚ) ≤ clamp (1 - 2 * (rll_std - 5/10)) (25/100) 1 :=
        le_trans (by norm_num) (le_clamp _ _ _)
      rw [abs_mul, abs_of_nonneg f1]
      exact mul_le_of_le_one_right (abs_nonneg cp) f2
    · have f2 : clamp (1 - 2 * (lll_std - 5/10)) (25/100) 1 ≤ 1 := clamp_le _ _ _ (by norm_num)
      have f1 : (0:ℚ) ≤ clamp (1 - 2 * (lll_std - 5/10)) (25/100) 1 :=
        le_trans (by norm_num) (le_clamp _ _ _)
      rw [abs_mul, abs_of_nonneg f1]
      exact mul_le_of_le_one_right (abs_nonneg cp) f2
    · exact le_refl _
  constructor
  · exact le_trans (hdamp _) hraw
  · intro h0
    have hw0 : prepare_wiggle_room_of lane_width = 0 := le_antisymm h0 hw
    have hraw0 : curve_prepare_raw E vcurv lane_width = 0 := by
      unfold curve_prepare_raw
      rw [if_neg (by rw [hw0]; exact lt_irrefl 0)]
    rw [hraw0]
    unfold curve_prepare_damped
    simp

/-- C6 witness: at `lane_width = 2` the wiggle room is 0 and the damped
curvature bias evaluates to 0. -/
theorem C6_curve_prepare_bounds_witness :
    prepare_wiggle_room_of 2 ≤ 0 ∧
    curve_prepare_damped (curve_prepare_raw expStub 0 2) 0 0 = 0 :=
  ⟨by norm_num [prepare_wiggle_room_of, KEEP_MIN_DISTANCE_FROM_LANE],
    (C6_curve_prepare_bounds expStub 0 2 0 0).2
      (by norm_num [prepare_wiggle_room_of, KEEP_MIN_DISTANCE_FROM_LANE])⟩

/-- C7: whenever the unnormalized weights exist (finite) and their sum is
at least 0.01, lines 91-92 divide each weight by the sum and the
post-normalization weights add up to exactly 1. -/
theorem C7_normalization (a b pl pr sl sr l r : ℚ)
    (hw : rawWeights a b pl pr sl sr = some (l, r)) (hs : 1/100 ≤ l + r) :
    normWeights (rawWeights a b pl pr sl sr) = some (l / (l + r), r / (l + r)) ∧
    l / (l + r) + r / (l + r) = 1 := by
  have hne : l + r ≠ 0 := ne_of_gt (lt_of_lt_of_le (by norm_num) hs)
  rw [hw]
  simp only [normWeights]
  rw [if_neg (not_lt.mpr hs)]
  refine ⟨rfl, ?_⟩
  rw [div_add_div_same, div_self hne]

/-- C7 witness: a symmetric geometry (`∓1.5 m`, zero stds) gives raw
weights `(1/2, 1/2)`; the theorem normalizes them to sum 1. -/
theorem C7_normalization_witness :
    normWeights (rawWeights (-(3/2)) (3/2) 0 0 0 0) =
      some (1/2 / (1/2 + 1/2), 1/2 / (1/2 + 1/2)) ∧
    (1/2 : ℚ) / (1/2 + 1/2) + 1/2 / (1/2 + 1/2) = 1 :=
  C7_normalization (-(3/2)) (3/2) 0 0 0 0 (1/2) (1/2)
    (by norm_num [rawWeights, interp_pair]) (by norm_num)

/-- C8: the high-joint-confidence gate of line 118 passes exactly when the
unnormalized weights exist and sum to at least 0.01 — normalization forces
the post-normalization sum to 1, so the 0.9 threshold never independently
blocks the blend. -/
theorem C8_gate_iff (a b pl pr sl sr : ℚ) :
    blend_gate (normWeights (rawWeights a b pl pr sl sr)) = true ↔
    ∃ l r, rawWeights a b pl pr sl sr = some (l, r) ∧ 1/100 ≤ l + r := by
  cases hw : rawWeights a b pl pr sl sr with
  | none =>
    simp only [normWeights, blend_gate]
    constructor
    · intro h
      exact absurd h (by simp)
    · rintro ⟨l, r, he, -⟩
      exact absurd he (by simp)
  | some p =>
    obtain ⟨l, r⟩ := p
    simp only [normWeights, blend_gate]
    by_cases h : l + r < 1/100
    · rw [if_pos h]
      constructor
      · intro hg
        norm_num at hg
      · rintro ⟨l', r', he, hs⟩
        rw [Option.some.injEq, Prod.mk.injEq] at he
        obtain ⟨rfl, rfl⟩ := he
        linarith
    · rw [if_neg h]
      push_neg at h
      have hne : l + r ≠ 0 := ne_of_gt (lt_of_lt_of_le (by norm_num) h)
      have hsum : l / (l + r) + r / (l + r) = 1 := by
        rw [div_add_div_same, div_self hne]
      constructor
      · intro _
        exact ⟨l, r, rfl, h⟩
      · intro _
        rw [decide_eq_true_eq, hsum]
        norm_num

/-- C10: `get_d_path` is deterministic — two calls with equal planner
states, speeds, path time axes, candidate paths and curvatures (and the
same library exponential) return equal results. -/
theorem C10_deterministic (E : ℚ → ℚ) (s1 s2 : LanePlanner) (v1 v2 : ℚ)
    (pt1 pt2 : List ℚ) (px1 px2 : List Vec3) (c1 c2 : ℚ)
    (hs : s1 = s2) (hv : v1 = v2) (hpt : pt1 = pt2) (hp : px1 = px2) (hc : c1 = c2) :
    get_d_path E s1 v1 pt1 px1 c1 = get_d_path E s2 v2 pt2 px2 c2 := by
  rw [hs, hv, hpt, hp, hc]

/-- C10 witness: determinism at a concrete call. -/
theorem C10_deterministic_witness :
    get_d_path expStub LanePlanner.init 0 [] [] 0 =
      get_d_path expStub LanePlanner.init 0 [] [] 0 :=
  C10_deterministic expStub LanePlanner.init LanePlanner.init 0 0 [] [] [] [] 0 0
    rfl rfl rfl rfl rfl

theorem normWeights_bounds (L R : ℚ) (hL0 : 0 ≤ L) (hR0 : 0 ≤ R) :
    ∃ l r, normWeights (some (L, R)) = some (l, r) ∧ 0 ≤ l ∧ l ≤ 1 ∧ 0 ≤ r ∧ r ≤ 1 ∧
      0 ≤ l + r - l * r ∧ l + r - l * r ≤ 1 := by
  simp only [normWeights]
  by_cases hc : L + R < 1/100
  · rw [if_pos hc]
    exact ⟨0, 0, rfl, le_refl _, by norm_num, le_refl _, by norm_num, by norm_num, by norm_num⟩
  · rw [if_neg hc]
    push_neg at hc
    have hpos : (0:ℚ) < L + R := lt_of_lt_of_le (by norm_num) hc
    have hl0 : 0 ≤ L / (L + R) := div_nonneg hL0 (le_of_lt hpos)
    have hr0 : 0 ≤ R / (L + R) := div_nonneg hR0 (le_of_lt hpos)
    have hl1 : L / (L + R) ≤ 1 := by
      rw [div_le_one hpos]
      linarith
    have hr1 : R / (L + R) ≤ 1 := by
      rw [div_le_one hpos]
      linarith
    refine ⟨L / (L + R), R / (L + R), rfl, hl0, hl1, hr0, hr1, ?_, ?_⟩
    · nlinarith [mul_nonneg hl0 (sub_nonneg.mpr hr1)]
    · nlinarith [mul_nonneg (sub_nonneg.mpr hl1) (sub_nonneg.mpr hr1)]

/-- C3 (amended): when the camera sits between the lane lines
(`leftLaneY[0] ≤ 0 ≤ rightLaneY[0]` with a positive distance) and the line
probabilities are nonnegative, the normalized weights and the stored
combined confidence `dProb = l + r − l·r` all lie in `[0, 1]` after every
successful `get_d_path` call.  (As stated — for every GeometrySample — the
claim is false: a geometry with both lane lines on one side of the camera
makes `rightRatio` negative and drives the weights and `dProb` outside
`[0, 1]`, see the counterexample.) -/
theorem C3_bounds (E : ℚ → ℚ) (s : LanePlanner) (a b : ℚ)
    (ha : s.lll_y.head? = some a) (hb : s.rll_y.head? = some b)
    (ha0 : a ≤ 0) (hb0 : 0 ≤ b) (hab : a < b)
    (hpl : 0 ≤ s.lll_prob) (hpr : 0 ≤ s.rll_prob) :
    ∃ l r, normWeights (rawWeights a b s.lll_prob s.rll_prob s.lll_std s.rll_std) =
        some (l, r) ∧
      0 ≤ l ∧ l ≤ 1 ∧ 0 ≤ r ∧ r ≤ 1 ∧ 0 ≤ l + r - l * r ∧ l + r - l * r ≤ 1 ∧
      ∀ v pt pxyz vc s' p', get_d_path E s v pt pxyz vc = some (s', p') →
        s'.d_prob = some (l + r - l * r) := by
  have hba : (0:ℚ) < b - a := sub_pos.mpr hab
  have hd : b - a ≠ 0 := ne_of_gt hba
  have hrr0 : 0 ≤ b / (b - a) := div_nonneg hb0 (le_of_lt hba)
  have hrr1 : b / (b - a) ≤ 1 := by
    rw [div_le_one hba]
    linarith
  obtain ⟨hf1a, hf1b⟩ := interp_std_bounds s.lll_std
  obtain ⟨hf2a, hf2b⟩ := interp_std_bounds s.rll_std
  have hw : rawWeights a b s.lll_prob s.rll_prob s.lll_std s.rll_std =
      some ((b / (b - a) + s.lll_prob * (4/10)) * interp s.lll_std [0, 4/5] [1, 1/100],
        ((1 - b / (b - a)) + s.rll_prob * (4/10)) * interp s.rll_std [0, 4/5] [1, 1/100]) := by
    simp only [rawWeights]
    rw [if_neg hd]
  have hL0 : 0 ≤ (b / (b - a) + s.lll_prob * (4/10)) * interp s.lll_std [0, 4/5] [1, 1/100] :=
    mul_nonneg (by linarith) (by linarith)
  have hR0 : 0 ≤ ((1 - b / (b - a)) + s.rll_prob * (4/10)) *
      interp s.rll_std [0, 4/5] [1, 1/100] :=
    mul_nonneg (by linarith) (by linarith)
  obtain ⟨l, r, hn, c1, c2, c3, c4, c5, c6⟩ := normWeights_bounds _ _ hL0 hR0
  refine ⟨l, r, ?_, c1, c2, c3, c4, c5, c6, ?_⟩
  · rw [hw]
    exact hn
  · intro v pt pxyz vc s' p' hcall
    obtain ⟨a', b', c', d', ha', hb', -, -, rfl⟩ :=
      get_d_path_some_state E s v pt pxyz vc s' p' hcall
    rw [ha] at ha'
    rw [hb] at hb'
    obtain rfl := Option.some.inj ha'
    obtain rfl := Option.some.inj hb'
    simp only [hw, hn, Option.map_some']

/-- C3 counterexample: the claim as stated is false.  With both lane lines
left of the camera (`lll_y[0] = −3`, `rll_y[0] = −1`) the right ratio is
`−1/2`; the normalized weights are `(−1/2, 3/2)` — outside `[0, 1]` — and a
call to `get_d_path` stores `dProb = 7/4 > 1`. -/
theorem C3_cex :
    normWeights (rawWeights (-3) (-1) 0 0 0 0) = some (-(1/2), 3/2) ∧
    (get_d_path expStub cexC3 0 [0] [(0, 0, 0)] 0).map (fun r => r.1.d_prob) =
      some (some (7/4)) ∧
    ¬((0:ℚ) ≤ -(1/2)) ∧ ¬((7/4 : ℚ) ≤ 1) := by
  refine ⟨?_, ?_, by norm_num, by norm_num⟩
  · norm_num [rawWeights, normWeights, interp_pair]
  · norm_num [get_d_path, cexC3, LanePlanner.init, rep33, rawWeights, normWeights,
      blend_gate, interp, List.zipWith_cons_cons, abs_of_nonneg, min_def, max_def]

/-- C3 witness: the amended theorem at the well-placed geometry `sC3w`
(lane lines at ∓1.5 m, probabilities 0). -/
theorem C3_bounds_witness :
    ∃ l r, normWeights (rawWeights (-(3/2)) (3/2) sC3w.lll_prob sC3w.rll_prob
        sC3w.lll_std sC3w.rll_std) = some (l, r) ∧
      0 ≤ l ∧ l ≤ 1 ∧ 0 ≤ r ∧ r ≤ 1 ∧ 0 ≤ l + r - l * r ∧ l + r - l * r ≤ 1 ∧
      ∀ v pt pxyz vc s' p', get_d_path expStub sC3w v pt pxyz vc = some (s', p') →
        s'.d_prob = some (l + r - l * r) :=
  C3_bounds expStub sC3w (-(3/2)) (3/2) rfl rfl (by norm_num) (by norm_num)
    (by norm_num) (by norm_num [sC3w, LanePlanner.init]) (by norm_num [sC3w, LanePlanner.init])

/-- C1 counterexample: the claim as stated is false.  At `cexC1` both inner
confidences are 0 and both stds are 0.8 (`≥ 0.8`), yet the unnormalized
weight sum is exactly 0.01, so the `< 0.01` gate does NOT fire; the weights
normalize to `(1/2, 1/2)`, the blend is applied, and the returned lateral
coordinate is `0.04` — not the caller-supplied `1` plus the camera offset
(`1.04`). -/
theorem C1_cex :
    (get_d_path expStub cexC1 0 [0] [(0, 1, 0)] 0).map (fun r => r.2) =
      some [(0, 1/25, 0)] ∧
    cexC1.lll_prob = 0 ∧ cexC1.rll_prob = 0 ∧ (4/5 : ℚ) ≤ cexC1.lll_std ∧
    (4/5 : ℚ) ≤ cexC1.rll_std ∧ (1 : ℚ) + CAMERA_OFFSET ≠ 1/25 := by
  refine ⟨?_, rfl, rfl, le_refl _, le_refl _, by norm_num [CAMERA_OFFSET]⟩
  norm_num [get_d_path, cexC1, LanePlanner.init, rep33, rawWeights, normWeights,
    blend_gate, interp, List.zipWith_cons_cons, abs_of_nonneg, min_def, max_def,
    clamp, FirstOrderFilter.update, FirstOrderFilter.make, DT_MDL,
    curve_prepare_raw, curve_prepare_damped, prepare_wiggle_room_of,
    KEEP_MIN_DISTANCE_FROM_LANE, sigmoid, expStub, CAMERA_OFFSET]

/-- C1 (amended): for every GeometrySample with both inner confidences 0,
both stds ≥ 0.8 and distinct first lateral samples, the unnormalized weight
sum equals exactly 0.01 — the boundary of the `< 0.01` fall-through gate —
so the gate does not fire, the weights are normalized (sum 1 > 0.9) and the
probability gate for the lane-based blend passes; the returned lateral
coordinates are then the blended lane path plus the camera offset, not the
caller-supplied ones plus the offset. -/
theorem C1_boundary_blend (a b sl sr : ℚ) (hab : a ≠ b) (hsl : 4/5 ≤ sl) (hsr : 4/5 ≤ sr) :
    (rawWeights a b 0 0 sl sr).map (fun p => p.1 + p.2) = some (1/100) ∧
    blend_gate (normWeights (rawWeights a b 0 0 sl sr)) = true := by
  have hd : b - a ≠ 0 := sub_ne_zero.mpr (Ne.symm hab)
  have hw : rawWeights a b 0 0 sl sr =
      some ((b / (b - a) + 0 * (4/10)) * (1/100),
        ((1 - b / (b - a)) + 0 * (4/10)) * (1/100)) := by
    simp only [rawWeights]
    rw [if_neg hd, interp_std_high sl hsl, interp_std_high sr hsr]
  have hsum : (b / (b - a) + 0 * (4/10)) * (1/100) +
      ((1 - b / (b - a)) + 0 * (4/10)) * (1/100) = 1/100 := by
    ring
  constructor
  · rw [hw, Option.map_some']
    exact congrArg some hsum
  · rw [hw]
    simp only [normWeights]
    rw [if_neg (not_lt.mpr (le_of_eq hsum.symm))]
    simp only [blend_gate]
    rw [decide_eq_true_eq, div_add_div_same, hsum]
    norm_num

/-- C1 witness: the amended theorem at lane lines `∓1.3 m`, stds `0.8`. -/
theorem C1_boundary_blend_witness :
    (rawWeights (-(13/10)) (13/10) 0 0 (4/5) (4/5)).map (fun p => p.1 + p.2) =
      some (1/100) ∧
    blend_gate (normWeights (rawWeights (-(13/10)) (13/10) 0 0 (4/5) (4/5))) = true :=
  C1_boundary_blend (-(13/10)) (13/10) (4/5) (4/5) (by norm_num) (le_refl _) (le_refl _)

/-- C9: at the spec's test input `leftLaneY[0] = rightLaneY[0] = 0.0` (the
initial state), the zero lane distance makes the weight division
non-finite; every later comparison on the poisoned values fails, the blend
is skipped, the cycle completes (`some`, i.e. no exception), the stored
combined confidence is non-finite and the returned path is the
caller-supplied path plus the camera offset. -/
theorem C9_zero_distance :
    (get_d_path expStub LanePlanner.init 0 [0] [(0, 1, 0)] 0).map
      (fun r => (r.1.d_prob, r.2)) = some (none, [(0, 26/25, 0)]) := by
  norm_num [get_d_path, LanePlanner.init, rep33, rawWeights, normWeights, blend_gate,
    CAMERA_OFFSET]
